import Mathlib

/-!
Verification of the `SynchronizedSamplePool` component of dd-trace-py's
profiling wrapper (`synchronized_sample_pool.hpp` / `.cpp`).

The pool is embedded sequentially: the moodycamel concurrent queue of
`Sample*` becomes a FIFO list of pointers, where a pointer is `Option α`
(`none` models the null pointer).  `std::optional<Sample*>` results become
`Option (Option α)`: `none` is `std::nullopt`, `some ptr` is an optional
holding the pointer `ptr`.
-/

namespace Datadog

/-- The pool state: the internal queue of `Sample*` pointers together with
the fixed capacity set at construction. -/
structure SynchronizedSamplePool (α : Type) where
  pool : List (Option α)
  capacity : Nat
deriving Repr, DecidableEq

/-- The constructor `SynchronizedSamplePool(size_t _capacity)`: the queue
starts empty (the argument to the queue constructor is only a size hint). -/
def mkPool (α : Type) (c : Nat) : SynchronizedSamplePool α :=
  { pool := [], capacity := c }

/-- `pool.try_dequeue(sample)` with `sample` initialised to `nullptr`:
returns the value left in `sample` together with the updated queue.  On an
empty queue `sample` stays null and the queue is unchanged; otherwise the
front element is removed and handed out. -/
def try_dequeue {α : Type} (p : SynchronizedSamplePool α) :
    Option α × SynchronizedSamplePool α :=
  match p.pool with
  | [] => (none, p)
  | s :: rest => (s, { p with pool := rest })

/-- `pool.size_approx()`: the number of elements in the queue. -/
def size_approx {α : Type} (p : SynchronizedSamplePool α) : Nat :=
  p.pool.length

/-- `take_sample`: try-dequeue into a null-initialised pointer; if the
pointer is still null afterwards return `std::nullopt`, otherwise return an
optional holding the pointer. -/
def take_sample {α : Type} (p : SynchronizedSamplePool α) :
    Option (Option α) × SynchronizedSamplePool α :=
  let r := try_dequeue p
  match r.1 with
  | none => (none, r.2)
  | some a => (some (some a), r.2)

/-- `return_sample(sample)`: if `size_approx() >= capacity` the sample is
not stored and is handed back (`some sample`); otherwise it is enqueued and
`std::nullopt` signals success. -/
def return_sample {α : Type} (p : SynchronizedSamplePool α)
    (sample : Option α) :
    Option (Option α) × SynchronizedSamplePool α :=
  if size_approx p ≥ p.capacity then
    (some sample, p)
  else
    (none, { p with pool := p.pool ++ [sample] })

/-- A single-threaded operation on the pool: a take, or a return of a given
pointer. -/
inductive PoolOp (α : Type) where
  | take : PoolOp α
  | ret : Option α → PoolOp α

/-- The state after one operation. -/
def applyOp {α : Type} (p : SynchronizedSamplePool α) :
    PoolOp α → SynchronizedSamplePool α
  | PoolOp.take => (take_sample p).2
  | PoolOp.ret s => (return_sample p s).2

/-- The state after a sequence of operations. -/
def runOps {α : Type} (p : SynchronizedSamplePool α) :
    List (PoolOp α) → SynchronizedSamplePool α
  | [] => p
  | op :: ops => runOps (applyOp p op) ops

/-- Capacity is immutable: no operation changes it. -/
lemma applyOp_capacity {α : Type} (p : SynchronizedSamplePool α)
    (op : PoolOp α) : (applyOp p op).capacity = p.capacity := by
  cases op with
  | take =>
    simp only [applyOp, take_sample, try_dequeue]
    cases p.pool with
    | nil => rfl
    | cons s rest => cases s <;> rfl
  | ret s =>
    simp only [applyOp, return_sample]
    by_cases h : size_approx p ≥ p.capacity
    · rw [if_pos h]
    · rw [if_neg h]

/-- Each operation preserves the occupancy bound. -/
lemma applyOp_size_le {α : Type} (p : SynchronizedSamplePool α)
    (op : PoolOp α) (h : size_approx p ≤ p.capacity) :
    size_approx (applyOp p op) ≤ (applyOp p op).capacity := by
  rw [applyOp_capacity]
  cases op with
  | take =>
    simp only [applyOp, take_sample, try_dequeue]
    cases hp : p.pool with
    | nil => simp only [size_approx, hp] at h ⊢; exact h
    | cons s rest =>
      cases s <;>
        · simp only [size_approx] at h ⊢
          simp only [hp, List.length_cons] at h
          omega
  | ret s =>
    simp only [applyOp, return_sample]
    by_cases hc : size_approx p ≥ p.capacity
    · rw [if_pos hc]; exact h
    · rw [if_neg hc]
      simp only [size_approx, List.length_append, List.length_cons,
        List.length_nil] at *
      omega

/-- Running any sequence of operations preserves the occupancy bound and
the capacity. -/
lemma runOps_size_le {α : Type} (ops : List (PoolOp α))
    (p : SynchronizedSamplePool α) (h : size_approx p ≤ p.capacity) :
    size_approx (runOps p ops) ≤ (runOps p ops).capacity ∧
    (runOps p ops).capacity = p.capacity := by
  induction ops generalizing p with
  | nil => exact ⟨h, rfl⟩
  | cons op ops ih =>
    have h1 := applyOp_size_le p op h
    have h2 := applyOp_capacity p op
    have h3 := ih (applyOp p op) h1
    exact ⟨h3.1, h3.2.trans h2⟩

/-- On a pool with capacity zero the store stays empty under any sequence
of operations. -/
lemma runOps_zero_cap {α : Type} (ops : List (PoolOp α))
    (p : SynchronizedSamplePool α) (hc : p.capacity = 0)
    (hp : p.pool = []) :
    (runOps p ops).pool = [] ∧ (runOps p ops).capacity = 0 := by
  induction ops generalizing p with
  | nil => exact ⟨hp, hc⟩
  | cons op ops ih =>
    apply ih
    · rw [applyOp_capacity]; exact hc
    · cases op with
      | take => simp [applyOp, take_sample, try_dequeue, hp]
      | ret s => simp [applyOp, return_sample, size_approx, hp, hc]

/-- take on a pool whose internal store is empty: the dequeued pointer stays
null, so the result is the empty outcome and the state is unchanged. -/
lemma take_sample_nil {α : Type} (p : SynchronizedSamplePool α)
    (hp : p.pool = []) : take_sample p = (none, p) := by
  unfold take_sample try_dequeue
  rw [hp]

/-- C1: capacity-2 scenario with pointers A = some 0, B = some 1, C = some 2:
return(A) ok, return(B) ok, return(C) rejected with C handed back and the
pool still holding exactly A and B; take yields A, take yields B leaving the
pool empty, and a third take reports empty. -/
theorem scenario_capacity_two :
    return_sample (mkPool Nat 2) (some 0) =
      (none, { pool := [some 0], capacity := 2 }) ∧
    return_sample { pool := [some 0], capacity := 2 } (some 1) =
      (none, { pool := [some 0, some 1], capacity := 2 }) ∧
    return_sample { pool := [some 0, some 1], capacity := 2 } (some 2) =
      (some (some 2), { pool := [some 0, some 1], capacity := 2 }) ∧
    take_sample { pool := [some 0, some 1], capacity := 2 } =
      (some (some 0), { pool := [some 1], capacity := 2 }) ∧
    take_sample { pool := [some 1], capacity := 2 } =
      (some (some 1), { pool := [], capacity := 2 }) ∧
    take_sample { pool := ([] : List (Option Nat)), capacity := 2 } =
      (none, { pool := [], capacity := 2 }) :=
  ⟨rfl, rfl, rfl, rfl, rfl, rfl⟩

/-- C2: round-trip reuse: returning a non-null handle to an empty pool with
capacity at least 1 signals success, and an immediately following take
returns exactly that handle and restores the original state. -/
theorem return_then_take_roundtrip {α : Type}
    (p : SynchronizedSamplePool α) (s : α) (hp : p.pool = [])
    (hc : 1 ≤ p.capacity) :
    (return_sample p (some s)).1 = none ∧
    take_sample (return_sample p (some s)).2 = (some (some s), p) := by
  have hlt : ¬ size_approx p ≥ p.capacity := by
    simp only [size_approx, hp, List.length_nil]
    omega
  constructor
  · unfold return_sample
    rw [if_neg hlt]
  · unfold return_sample
    rw [if_neg hlt]
    unfold take_sample try_dequeue
    simp only [hp, List.nil_append]
    cases p with
    | mk pl c =>
      simp only at hp
      subst hp
      rfl

/-- C2 witness at capacity 1 with handle 5. -/
theorem return_then_take_roundtrip_witness :
    (return_sample (mkPool Nat 1) (some 5)).1 = none ∧
    take_sample (return_sample (mkPool Nat 1) (some 5)).2 =
      (some (some 5), mkPool Nat 1) :=
  return_then_take_roundtrip (mkPool Nat 1) 5 rfl (by decide)

/-- C3: when occupancy is at or above capacity, return_sample stores
nothing, leaves the pool completely unchanged, and hands back exactly the
pointer that was passed in. -/
theorem return_at_capacity_rejects {α : Type}
    (p : SynchronizedSamplePool α) (s : Option α)
    (h : size_approx p ≥ p.capacity) :
    return_sample p s = (some s, p) := by
  unfold return_sample
  rw [if_pos h]

/-- C3 witness: a pool of capacity 1 holding one pointer rejects handle 7
and returns it unchanged. -/
theorem return_at_capacity_rejects_witness :
    return_sample ({ pool := [some 0], capacity := 1 } :
        SynchronizedSamplePool Nat) (some 7) =
      (some (some 7), { pool := [some 0], capacity := 1 }) :=
  return_at_capacity_rejects
    ({ pool := [some 0], capacity := 1 } : SynchronizedSamplePool Nat)
    (some 7) (by decide)

/-- C4: when occupancy is strictly below capacity, return_sample signals
success (no handle comes back), appends the handle to the store, the
occupancy grows by one, and the handle is among the stored pointers. -/
theorem return_below_capacity_stores {α : Type}
    (p : SynchronizedSamplePool α) (s : Option α)
    (h : size_approx p < p.capacity) :
    (return_sample p s).1 = none ∧
    (return_sample p s).2.pool = p.pool ++ [s] ∧
    size_approx (return_sample p s).2 = size_approx p + 1 ∧
    s ∈ (return_sample p s).2.pool := by
  have hlt : ¬ p.capacity ≤ p.pool.length := by
    simp only [size_approx] at h
    omega
  refine ⟨?_, ?_, ?_, ?_⟩ <;>
    simp [return_sample, size_approx, hlt]

/-- C4 witness: an empty capacity-1 pool accepts handle 3. -/
theorem return_below_capacity_stores_witness :
    (return_sample (mkPool Nat 1) (some 3)).1 = none ∧
    (return_sample (mkPool Nat 1) (some 3)).2.pool =
      (mkPool Nat 1).pool ++ [some 3] ∧
    size_approx (return_sample (mkPool Nat 1) (some 3)).2 =
      size_approx (mkPool Nat 1) + 1 ∧
    some 3 ∈ (return_sample (mkPool Nat 1) (some 3)).2.pool :=
  return_below_capacity_stores (mkPool Nat 1) (some 3) (by decide)

/-- C5: take on a pool holding zero free handles yields the explicit empty
outcome (the absent optional, not any pointer value) and leaves the pool
unchanged. -/
theorem take_on_empty_pool {α : Type} (p : SynchronizedSamplePool α)
    (hp : p.pool = []) : take_sample p = (none, p) :=
  take_sample_nil p hp

/-- C5 witness: an empty pool of capacity 3. -/
theorem take_on_empty_pool_witness :
    take_sample (mkPool Nat 3) = (none, mkPool Nat 3) :=
  take_on_empty_pool (mkPool Nat 3) rfl

/-- C6: bounded retention: starting from the empty pool of capacity C,
after any single-threaded sequence of take and return operations the number
of stored handles never exceeds C (so in particular it holds after every
prefix of a longer sequence). -/
theorem bounded_retention {α : Type} (C : Nat) (ops : List (PoolOp α)) :
    size_approx (runOps (mkPool α C) ops) ≤ C := by
  have h := runOps_size_le ops (mkPool α C)
    (by simp [size_approx, mkPool])
  exact h.1.trans (le_of_eq (h.2.trans rfl))

/-- C8: both operations are total with only the two tagged outcomes: take
either reports empty or hands out a non-null pointer, and return either
hands back exactly the offered pointer (rejection) or signals success having
enqueued it. -/
theorem ops_total_tagged_outcomes {α : Type}
    (p : SynchronizedSamplePool α) (s : Option α) :
    ((take_sample p).1 = none ∨
      ∃ a : α, (take_sample p).1 = some (some a)) ∧
    ((return_sample p s).1 = some s ∨
      ((return_sample p s).1 = none ∧
        (return_sample p s).2.pool = p.pool ++ [s])) := by
  constructor
  · unfold take_sample try_dequeue
    cases hp : p.pool with
    | nil => exact Or.inl rfl
    | cons h t =>
      cases h with
      | none => exact Or.inl rfl
      | some a => exact Or.inr ⟨a, rfl⟩
  · unfold return_sample
    by_cases hc : size_approx p ≥ p.capacity
    · rw [if_pos hc]
      exact Or.inl rfl
    · rw [if_neg hc]
      exact Or.inr ⟨rfl, rfl⟩

/-- C9: zero-capacity pool: after any sequence of operations starting from
the empty pool of capacity 0, every return is rejected with the handle
bounced back and nothing stored, and every take reports empty. -/
theorem zero_capacity_always_rejects {α : Type}
    (ops : List (PoolOp α)) (s : Option α) :
    return_sample (runOps (mkPool α 0) ops) s =
      (some s, runOps (mkPool α 0) ops) ∧
    take_sample (runOps (mkPool α 0) ops) =
      (none, runOps (mkPool α 0) ops) := by
  have h := runOps_zero_cap ops (mkPool α 0) rfl rfl
  constructor
  · unfold return_sample
    rw [if_pos (by rw [h.2]; exact Nat.zero_le _)]
  · exact take_sample_nil _ h.1

/-- C10: null-handle anomaly: return_sample does not validate its argument,
so a null pointer offered below capacity is accepted (success signalled,
null stored); a take whose dequeue yields that stored null reports the
empty outcome while silently consuming the entry; hence the round trip on
an empty pool with capacity at least 1 ends in the empty outcome instead of
returning the stored entry. -/
theorem null_handle_anomaly {α : Type} (p : SynchronizedSamplePool α)
    (t : List (Option α)) :
    (size_approx p < p.capacity →
      return_sample p none = (none, { p with pool := p.pool ++ [none] })) ∧
    (p.pool = none :: t →
      take_sample p = (none, { p with pool := t })) ∧
    (p.pool = [] → 1 ≤ p.capacity →
      (return_sample p none).1 = none ∧
      take_sample (return_sample p none).2 = (none, p)) := by
  refine ⟨?_, ?_, ?_⟩
  · intro h
    unfold return_sample
    rw [if_neg (not_le.mpr h)]
  · intro h
    unfold take_sample try_dequeue
    rw [h]
  · intro hp hc
    have hlt : ¬ size_approx p ≥ p.capacity := by
      simp only [size_approx, hp, List.length_nil]
      omega
    constructor
    · unfold return_sample
      rw [if_neg hlt]
    · unfold return_sample
      rw [if_neg hlt]
      unfold take_sample try_dequeue
      simp only [hp, List.nil_append]
      cases p with
      | mk pl c =>
        simp only at hp
        subst hp
        rfl

/-- C10 witness: on an empty capacity-1 pool, returning null succeeds and
stores it; taking from the pool holding only null reports empty and drops
the entry; the null round trip ends in the empty outcome. -/
theorem null_handle_anomaly_witness :
    return_sample (mkPool Nat 1) none =
      (none, { pool := [none], capacity := 1 }) ∧
    take_sample ({ pool := [none], capacity := 1 } :
        SynchronizedSamplePool Nat) =
      (none, { pool := [], capacity := 1 }) ∧
    (return_sample (mkPool Nat 1) none).1 = none ∧
    take_sample (return_sample (mkPool Nat 1) none).2 =
      (none, mkPool Nat 1) :=
  ⟨(null_handle_anomaly (mkPool Nat 1) []).1 (by decide),
   (null_handle_anomaly ({ pool := [none], capacity := 1 } :
      SynchronizedSamplePool Nat) []).2.1 rfl,
   ((null_handle_anomaly (mkPool Nat 1) []).2.2 rfl (by decide)).1,
   ((null_handle_anomaly (mkPool Nat 1) []).2.2 rfl (by decide)).2⟩

end Datadog
